import Mathlib

/-!
Shallow embedding of the peer discovery, pairing and status subsystem of
scratch-sync (src/scratch_sync/discovery.py, syncthing.py, tailscale.py,
cli.py), together with theorems checking the natural-language design
specification against it.

External effects (HTTP transport, CLI subprocesses, JSON parsing, the
clock) are passed in explicitly: an HTTP request outcome is a value of an
inductive type, each CLI invocation's success is a boolean drawn from an
environment record, parsed JSON documents are structures, and fallible or
externally-implemented primitives (ISO-8601 datetime parsing) are function
parameters.  Everything that the Python source computes itself is
transliterated.
-/

set_option autoImplicit false

namespace ScratchSync

/-- Python truthiness of an optional string: `None` and `""` are falsy. -/
def pyTruthyS : Option String → Bool
  | none => false
  | some s => decide (s ≠ "")

/-- Python truthiness of an optional boolean (a JSON field that may be absent). -/
def pyTruthyB : Option Bool → Bool
  | none => false
  | some b => b

/-- Python `a or b` on optional strings: the first operand if truthy, else the second. -/
def pyOrS (a b : Option String) : Option String :=
  if pyTruthyS a then a else b

/-- Substring search on character lists, used to embed Python's `in` on strings. -/
def hasSub (pat : List Char) : List Char → Bool
  | [] => pat.isEmpty
  | l@(_ :: rest) => pat.isPrefixOf l || hasSub pat rest

/-- Python `pat in s` for strings. -/
def strContains (s pat : String) : Bool :=
  hasSub pat.data s.data

/-- Python `s.startswith(pat)`. -/
def pyStartsWith (s pat : String) : Bool :=
  pat.data.isPrefixOf s.data

/-- Python `s.lower()` (ASCII case folding suffices for the strings the
source compares). -/
def pyLower (s : String) : String :=
  ⟨s.data.map Char.toLower⟩

/-! ### discovery.py: DiscoveryStatus, DiscoveryResult, discover_syncthing_peer_detailed -/

/-- Embeds `DiscoveryStatus` of discovery.py (the spec calls
`NO_SYNCTHING_HEADER` "NO_IDENTITY_HEADER"). -/
inductive DiscoveryStatus where
  | SUCCESS
  | CONNECTION_REFUSED
  | TIMEOUT
  | NO_SYNCTHING_HEADER
  | HTTP_ERROR
  | UNKNOWN_ERROR
deriving DecidableEq

/-- Embeds the `peer_info` dictionary built by
`discover_syncthing_peer_detailed` on success. -/
structure PeerInfo where
  hostname : Option String
  tailscale_ip : String
  syncthing_device_id : String
  syncthing_version : String
  syncthing_port : Nat
deriving DecidableEq

/-- Embeds `DiscoveryResult` of discovery.py. -/
structure DiscoveryResult where
  status : DiscoveryStatus
  peer_info : Option PeerInfo := none
  error_message : Option String := none
deriving DecidableEq

/-- The possible outcomes of the single `httpx` GET that
`discover_syncthing_peer_detailed` performs: an HTTP response with a status
code and response headers, an `httpx.ConnectError` carrying a message, an
`httpx.TimeoutException`, or any other exception carrying a message. -/
inductive HttpOutcome where
  | response (statusCode : Nat) (headers : List (String × String))
  | connectError (msg : String)
  | timeout
  | otherException (msg : String)
deriving DecidableEq

/-- Embeds `response.headers.get(name)`: the first header with the given
name, if any. -/
def getHeader (headers : List (String × String)) (name : String) : Option String :=
  (headers.find? (fun p => p.1 = name)).map (fun p => p.2)

/-- Embeds `discover_syncthing_peer_detailed(ip, port, timeout)` of
discovery.py, parameterized by the outcome of the HTTP GET it issues.
`port` and `timeout` only shape the request, so the classification is a
function of `ip` and the outcome. -/
def discover_syncthing_peer_detailed (ip : String) (outcome : HttpOutcome) :
    DiscoveryResult :=
  match outcome with
  | .response statusCode headers =>
    if statusCode = 200 then
      let device_id := getHeader headers "X-Syncthing-Id"
      let version := (getHeader headers "X-Syncthing-Version").getD "unknown"
      if pyTruthyS device_id then
        { status := .SUCCESS,
          peer_info := some
            { hostname := none,
              tailscale_ip := ip,
              syncthing_device_id := device_id.getD "",
              syncthing_version := version,
              syncthing_port := 22000 } }
      else
        { status := .NO_SYNCTHING_HEADER,
          error_message := some "HTTP response received but no X-Syncthing-Id header" }
    else
      { status := .HTTP_ERROR,
        error_message := some ("HTTP " ++ Nat.repr statusCode) }
  | .connectError msg =>
    let error_str := pyLower msg
    if strContains error_str "refused" || strContains error_str "connection refused" then
      { status := .CONNECTION_REFUSED,
        error_message := some "Connection refused - Syncthing GUI not listening on this address" }
    else
      { status := .UNKNOWN_ERROR,
        error_message := some ("Connection error: " ++ msg) }
  | .timeout =>
    { status := .TIMEOUT, error_message := some "Connection timed out" }
  | .otherException msg =>
    { status := .UNKNOWN_ERROR, error_message := some msg }

/-- C2: for every probe input and every HTTP/transport outcome, the
`DiscoveryResult` has `peer_info` present if and only if its status is
`SUCCESS`; in every non-`SUCCESS` outcome `peer_info` is absent. -/
theorem probe_peer_info_iff_success (ip : String) (outcome : HttpOutcome) :
    (discover_syncthing_peer_detailed ip outcome).peer_info.isSome = true ↔
    (discover_syncthing_peer_detailed ip outcome).status = .SUCCESS := by
  cases outcome with
  | response statusCode headers =>
    simp only [discover_syncthing_peer_detailed]
    split
    · split <;> simp
    · simp
  | connectError msg =>
    simp only [discover_syncthing_peer_detailed]
    split <;> simp
  | timeout => simp [discover_syncthing_peer_detailed]
  | otherException msg => simp [discover_syncthing_peer_detailed]

/-! ### syncthing.py: the daemon's device configuration, seen through its CLI

A device record of the local Syncthing configuration.  `list_devices`,
`add_device` and `set_device_address` shell out to the syncthing CLI; each
invocation either succeeds (exit code 0) and performs its action, or fails
and leaves the configuration unchanged.  Which invocations succeed is drawn
from a `CliEnv` of booleans. -/
structure Device where
  deviceID : String
  name : Option String := none
  address : Option String := none
deriving DecidableEq

/-- The local Syncthing configuration state acted on by the CLI wrappers. -/
structure SyncthingConfig where
  devices : List Device
deriving DecidableEq

/-- Success flags for the syncthing CLI invocations made during pairing. -/
structure CliEnv where
  listOk : Bool
  addOk : Bool
  setAddrOk : Bool
deriving DecidableEq

/-- Embeds `syncthing.list_devices()`: device IDs on success, `[]` when the
CLI exits non-zero. -/
def list_devices (env : CliEnv) (cfg : SyncthingConfig) : List String :=
  if env.listOk then cfg.devices.map (fun d => d.deviceID) else []

/-- Embeds `syncthing.add_device(device_id, name)`: appends a device record
(the `--name` flag is passed only for a truthy name), returns the CLI's
success. -/
def add_device (env : CliEnv) (cfg : SyncthingConfig) (device_id : String)
    (name : Option String) : Bool × SyncthingConfig :=
  if env.addOk then
    (true, ⟨cfg.devices ++
      [{ deviceID := device_id, name := if pyTruthyS name then name else none }]⟩)
  else (false, cfg)

/-- The per-record effect of `syncthing.set_device_address`: the record with
the given device ID gets the new address, every other record is unchanged. -/
def updAddress (device_id address : String) (d : Device) : Device :=
  if d.deviceID = device_id then { d with address := some address } else d

/-- Embeds `syncthing.set_device_address(device_id, address)`. -/
def set_device_address (env : CliEnv) (cfg : SyncthingConfig)
    (device_id address : String) : Bool × SyncthingConfig :=
  if env.setAddrOk then (true, ⟨cfg.devices.map (updAddress device_id address)⟩)
  else (false, cfg)

/-- The address string `f"tcp://{ip}:{port}"` built by `auto_pair_with_peer`. -/
def tcpAddr (ip : String) (port : Nat) : String :=
  "tcp://" ++ ip ++ ":" ++ Nat.repr port

/-- Embeds the `peer_info` dictionary consumed by `auto_pair_with_peer`
(`dict.get` of an absent key gives `none`). -/
structure PairInput where
  syncthing_device_id : Option String := none
  tailscale_ip : Option String := none
  hostname : Option String := none
  tailscale_hostname : Option String := none
  syncthing_port : Option Nat := none
deriving DecidableEq

/-- Embeds `discovery.auto_pair_with_peer(peer_info)`, threading the
configuration state and the CLI success flags explicitly.  Note that the
source ignores the return value of both `set_device_address` calls. -/
def auto_pair_with_peer (env : CliEnv) (cfg : SyncthingConfig) (info : PairInput) :
    Bool × SyncthingConfig :=
  if pyTruthyS info.syncthing_device_id && pyTruthyS info.tailscale_ip then
    let did := info.syncthing_device_id.getD ""
    let ip := info.tailscale_ip.getD ""
    let port := info.syncthing_port.getD 22000
    let hostname := pyOrS info.hostname info.tailscale_hostname
    if did ∈ list_devices env cfg then
      (true, (set_device_address env cfg did (tcpAddr ip port)).2)
    else
      let r := add_device env cfg did hostname
      if r.1 then (true, (set_device_address env r.2 did (tcpAddr ip port)).2)
      else (false, r.2)
  else (false, cfg)

/-! ### Helper lemmas about the address update map -/

theorem pyTruthyS_some {s : String} (h : s ≠ "") : pyTruthyS (some s) = true := by
  simp [pyTruthyS]; exact h

theorem updAddress_deviceID (device_id address : String) (d : Device) :
    (updAddress device_id address d).deviceID = d.deviceID := by
  unfold updAddress; split <;> rfl

theorem map_upd_ids (device_id address : String) (l : List Device) :
    (l.map (updAddress device_id address)).map (fun d => d.deviceID) =
    l.map (fun d => d.deviceID) := by
  induction l with
  | nil => rfl
  | cons d rest ih => simp [updAddress_deviceID, ih]

theorem filter_upd_count (device_id address : String) (l : List Device) :
    ((l.map (updAddress device_id address)).filter
      (fun d => d.deviceID = device_id)).length =
    (l.filter (fun d => d.deviceID = device_id)).length := by
  induction l with
  | nil => rfl
  | cons d rest ih =>
    simp only [List.map_cons, List.filter_cons, updAddress_deviceID]
    split <;> simp [ih]

theorem mem_map_upd_address (device_id address : String) (l : List Device)
    (d : Device) (hmem : d ∈ l.map (updAddress device_id address))
    (hid : d.deviceID = device_id) : d.address = some address := by
  rcases List.mem_map.mp hmem with ⟨d0, _, rfl⟩
  unfold updAddress at hid ⊢
  by_cases h : d0.deviceID = device_id
  · simp [h]
  · rw [if_neg h] at hid; exact absurd hid h

theorem mem_ids_iff_filter_pos (l : List Device) (device_id : String) :
    device_id ∈ l.map (fun d => d.deviceID) ↔
    0 < (l.filter (fun d => d.deviceID = device_id)).length := by
  induction l with
  | nil => simp
  | cons d rest ih =>
    simp only [List.map_cons, List.mem_cons, List.filter_cons]
    by_cases h : d.deviceID = device_id
    · simp [h]
    · have h2 : ¬ device_id = d.deviceID := fun he => h he.symm
      simp [h, h2, ih]

theorem auto_pair_existing
    (env : CliEnv) (cfg : SyncthingConfig) (info : PairInput) (did ip : String)
    (hlist : env.listOk = true) (hset : env.setAddrOk = true)
    (hdid : info.syncthing_device_id = some did) (hdne : did ≠ "")
    (hip : info.tailscale_ip = some ip) (hipne : ip ≠ "")
    (hmem : did ∈ cfg.devices.map (fun d => d.deviceID)) :
    auto_pair_with_peer env cfg info =
      (true, ⟨cfg.devices.map
        (updAddress did (tcpAddr ip (info.syncthing_port.getD 22000)))⟩) := by
  have hmem2 : did ∈ list_devices env cfg := by
    simp only [list_devices, hlist, if_true]; exact hmem
  simp only [auto_pair_with_peer, hdid, hip, pyTruthyS_some hdne, pyTruthyS_some hipne,
    Bool.and_self, if_true, Option.getD_some]
  rw [if_pos hmem2]
  simp [set_device_address, hset]

theorem auto_pair_new
    (env : CliEnv) (cfg : SyncthingConfig) (info : PairInput) (did ip : String)
    (hlist : env.listOk = true) (hadd : env.addOk = true) (hset : env.setAddrOk = true)
    (hdid : info.syncthing_device_id = some did) (hdne : did ≠ "")
    (hip : info.tailscale_ip = some ip) (hipne : ip ≠ "")
    (hmem : did ∉ cfg.devices.map (fun d => d.deviceID)) :
    ∃ nm : Option String, auto_pair_with_peer env cfg info =
      (true, ⟨(cfg.devices ++ [Device.mk did nm none]).map
        (updAddress did (tcpAddr ip (info.syncthing_port.getD 22000)))⟩) := by
  have hmem2 : did ∉ list_devices env cfg := by
    simp only [list_devices, hlist, if_true]; exact hmem
  refine ⟨if pyTruthyS (pyOrS info.hostname info.tailscale_hostname)
    then pyOrS info.hostname info.tailscale_hostname else none, ?_⟩
  simp only [auto_pair_with_peer, hdid, hip, pyTruthyS_some hdne, pyTruthyS_some hipne,
    Bool.and_self, if_true, Option.getD_some]
  rw [if_neg hmem2]
  simp [add_device, hadd, set_device_address, hset]

theorem auto_pair_second_call
    (env : CliEnv) (cfg1 : SyncthingConfig) (info2 : PairInput) (did ip2 : String)
    (hlist : env.listOk = true) (hset : env.setAddrOk = true)
    (hdid2 : info2.syncthing_device_id = some did) (hdne : did ≠ "")
    (hip2 : info2.tailscale_ip = some ip2) (hip2ne : ip2 ≠ "")
    (hmem1 : did ∈ cfg1.devices.map (fun d => d.deviceID))
    (hcnt1 : (cfg1.devices.filter (fun d => d.deviceID = did)).length = 1) :
    (auto_pair_with_peer env cfg1 info2).1 = true ∧
    ((auto_pair_with_peer env cfg1 info2).2.devices.filter
      (fun d => d.deviceID = did)).length = 1 ∧
    ∀ d ∈ (auto_pair_with_peer env cfg1 info2).2.devices, d.deviceID = did →
      d.address = some (tcpAddr ip2 (info2.syncthing_port.getD 22000)) := by
  rw [auto_pair_existing env cfg1 info2 did ip2 hlist hset hdid2 hdne hip2 hip2ne hmem1]
  refine ⟨rfl, ?_, ?_⟩
  · rw [filter_upd_count]; exact hcnt1
  · intro d hd hdeq
    exact mem_map_upd_address _ _ _ _ hd hdeq

/-- C1: pair is idempotent on device identity.  If `device_id` is already
among the configured devices, `auto_pair_with_peer` returns success having
only updated the stored address to `tcp://<ip>:<port>` (no record is added
or removed).  Calling it twice with the same `device_id` (starting from a
configuration holding at most one record for it) leaves exactly one record
for that `device_id`, whose address comes from the second call. -/
theorem pair_idempotent
    (env : CliEnv) (cfg : SyncthingConfig) (info info2 : PairInput) (did ip ip2 : String)
    (hlist : env.listOk = true) (hadd : env.addOk = true) (hset : env.setAddrOk = true)
    (hdid : info.syncthing_device_id = some did) (hdne : did ≠ "")
    (hip : info.tailscale_ip = some ip) (hipne : ip ≠ "")
    (hdid2 : info2.syncthing_device_id = some did)
    (hip2 : info2.tailscale_ip = some ip2) (hip2ne : ip2 ≠ "") :
    (did ∈ cfg.devices.map (fun d => d.deviceID) →
      (auto_pair_with_peer env cfg info).1 = true ∧
      (auto_pair_with_peer env cfg info).2.devices =
        cfg.devices.map (updAddress did (tcpAddr ip (info.syncthing_port.getD 22000))) ∧
      (auto_pair_with_peer env cfg info).2.devices.map (fun d => d.deviceID) =
        cfg.devices.map (fun d => d.deviceID)) ∧
    ((cfg.devices.filter (fun d => d.deviceID = did)).length ≤ 1 →
      (auto_pair_with_peer env (auto_pair_with_peer env cfg info).2 info2).1 = true ∧
      ((auto_pair_with_peer env (auto_pair_with_peer env cfg info).2 info2).2.devices.filter
        (fun d => d.deviceID = did)).length = 1 ∧
      ∀ d ∈ (auto_pair_with_peer env (auto_pair_with_peer env cfg info).2 info2).2.devices,
        d.deviceID = did →
        d.address = some (tcpAddr ip2 (info2.syncthing_port.getD 22000))) := by
  constructor
  · intro hmem
    rw [auto_pair_existing env cfg info did ip hlist hset hdid hdne hip hipne hmem]
    exact ⟨rfl, rfl, map_upd_ids _ _ _⟩
  · intro hle
    by_cases hmem : did ∈ cfg.devices.map (fun d => d.deviceID)
    · rw [auto_pair_existing env cfg info did ip hlist hset hdid hdne hip hipne hmem]
      have hcnt : 0 < (cfg.devices.filter (fun d => d.deviceID = did)).length :=
        (mem_ids_iff_filter_pos cfg.devices did).mp hmem
      exact auto_pair_second_call env _ info2 did ip2 hlist hset hdid2 hdne hip2 hip2ne
        (by rw [map_upd_ids]; exact hmem)
        (by rw [filter_upd_count]; omega)
    · obtain ⟨nm, heq⟩ :=
        auto_pair_new env cfg info did ip hlist hadd hset hdid hdne hip hipne hmem
      rw [heq]
      have hcnt0 : (cfg.devices.filter (fun d => d.deviceID = did)).length = 0 := by
        have := (mem_ids_iff_filter_pos cfg.devices did).not.mp hmem
        omega
      refine auto_pair_second_call env _ info2 did ip2 hlist hset hdid2 hdne hip2 hip2ne ?_ ?_
      · rw [map_upd_ids, List.map_append, List.mem_append]
        right; simp
      · rw [filter_upd_count, List.filter_append, List.length_append, hcnt0]
        simp

/-- Witness for pair_idempotent at a concrete configuration already holding
the device. -/
theorem pair_idempotent_witness :
    (auto_pair_with_peer ⟨true, true, true⟩ ⟨[⟨"D1", none, none⟩]⟩
      ⟨some "D1", some "ip1", none, none, none⟩).1 = true ∧
    ((auto_pair_with_peer ⟨true, true, true⟩
        (auto_pair_with_peer ⟨true, true, true⟩ ⟨[⟨"D1", none, none⟩]⟩
          ⟨some "D1", some "ip1", none, none, none⟩).2
        ⟨some "D1", some "ip2", none, none, some 123⟩).2.devices.filter
      (fun d => d.deviceID = "D1")).length = 1 := by
  have h := pair_idempotent ⟨true, true, true⟩ ⟨[⟨"D1", none, none⟩]⟩
    ⟨some "D1", some "ip1", none, none, none⟩ ⟨some "D1", some "ip2", none, none, some 123⟩
    "D1" "ip1" "ip2" rfl rfl rfl rfl (by decide) rfl (by decide) rfl rfl (by decide)
  exact ⟨(h.1 (by decide)).1, (h.2 (by decide)).2.1⟩

/-! ### cli.py `pair`: the loop over the selected peers -/

/-- Embeds the pairing loop of the `pair` command in cli.py: each selected
peer (together with the success flags of the CLI calls its pairing makes) is
handed to `auto_pair_with_peer`; on success its `syncthing_device_id` is
appended to `paired_device_ids`. -/
def pairSelected : List (CliEnv × PairInput) → SyncthingConfig →
    List (Option String) × SyncthingConfig
  | [], cfg => ([], cfg)
  | (e, i) :: rest, cfg =>
    let r := auto_pair_with_peer e cfg i
    let tail := pairSelected rest r.2
    (if r.1 then i.syncthing_device_id :: tail.1 else tail.1, tail.2)

theorem auto_pair_false_state (e : CliEnv) (cfg : SyncthingConfig) (i : PairInput)
    (h : (auto_pair_with_peer e cfg i).1 = false) :
    (auto_pair_with_peer e cfg i).2 = cfg := by
  simp only [auto_pair_with_peer] at h ⊢
  split_ifs at h ⊢ with h1 h2 h3
  · cases haddOk : e.addOk with
    | true => exact absurd (by simp [add_device, haddOk]) h3
    | false => simp [add_device, haddOk]
  · rfl

/-- Counterexample to C6 as stated: with a healthy device list and a failing
`set_device_address` write, `auto_pair_with_peer` still returns `true` for an
already-configured device, although an underlying configuration write (the
address set) failed.  The source ignores the return value of
`set_device_address`. -/
theorem pair_true_despite_failed_address_write :
    (set_device_address ⟨true, true, false⟩ ⟨[⟨"AAA", none, none⟩]⟩ "AAA"
      (tcpAddr "ip" 22000)).1 = false ∧
    (auto_pair_with_peer ⟨true, true, false⟩ ⟨[⟨"AAA", none, none⟩]⟩
      ⟨some "AAA", some "ip", none, none, none⟩).1 = true := by decide

/-- C6 (amended): `auto_pair_with_peer` returns `false` exactly when the
identity lacks a (truthy) `syncthing_device_id` or `tailscale_ip`, or when
the device is not among the listed devices and the device-add write fails; a
failed address-set write alone does not produce `false`.  A `false` result
for one peer leaves the state unchanged, so the loop over the remaining
selected peers proceeds exactly as if that peer were absent. -/
theorem pair_false_characterization
    (env : CliEnv) (cfg : SyncthingConfig) (info : PairInput) :
    ((auto_pair_with_peer env cfg info).1 = false ↔
      (pyTruthyS info.syncthing_device_id = false ∨
       pyTruthyS info.tailscale_ip = false ∨
       (info.syncthing_device_id.getD "" ∉ list_devices env cfg ∧
        env.addOk = false))) ∧
    (∀ (e : CliEnv) (i : PairInput) (rest : List (CliEnv × PairInput)),
      (auto_pair_with_peer e cfg i).1 = false →
      pairSelected ((e, i) :: rest) cfg = pairSelected rest cfg) := by
  constructor
  · simp only [auto_pair_with_peer]
    split_ifs with h1 h2 h3
    · -- guard passes, device already listed: result is true
      simp only [Bool.and_eq_true] at h1
      simp [h1.1, h1.2, h2]
    · -- guard passes, device absent, add succeeded: result is true
      simp only [Bool.and_eq_true] at h1
      have haddOk : env.addOk = true := by
        by_contra hc
        have : env.addOk = false := by
          cases henv : env.addOk
          · rfl
          · exact absurd henv hc
        simp [add_device, this] at h3
      simp [h1.1, h1.2, h2, haddOk]
    · -- guard passes, device absent, add failed: result is false
      simp only [Bool.and_eq_true] at h1
      have haddOk : env.addOk = false := by
        cases henv : env.addOk
        · rfl
        · exact absurd (by simp [add_device, henv]) h3
      simp [h1.1, h1.2, h2, haddOk]
    · -- guard fails: result is false and a truthiness disjunct holds
      simp only [Bool.and_eq_true, not_and_or] at h1
      constructor
      · intro _
        rcases h1 with h | h <;> [left; right] <;> simp_all [Bool.not_eq_true]
      · intro _; rfl
  · intro e i rest h
    have hst := auto_pair_false_state e cfg i h
    simp [pairSelected, h, hst]

/-- Witness for pair_false_characterization at a concrete identity lacking a
device ID. -/
theorem pair_false_characterization_witness :
    (auto_pair_with_peer ⟨true, true, true⟩ ⟨[]⟩
      ⟨none, some "ip", none, none, none⟩).1 = false ∧
    pairSelected [(⟨true, true, true⟩, ⟨none, some "ip", none, none, none⟩)] ⟨[]⟩ =
      pairSelected [] ⟨[]⟩ := by
  have h := pair_false_characterization ⟨true, true, true⟩ ⟨[]⟩
    ⟨none, some "ip", none, none, none⟩
  have h1 : (auto_pair_with_peer ⟨true, true, true⟩ ⟨[]⟩
      ⟨none, some "ip", none, none, none⟩).1 = false :=
    h.1.mpr (Or.inl (by decide))
  exact ⟨h1, h.2 _ _ [] h1⟩

/-- Instrumented view of the same loop: records, for each selected peer, the
success of its `auto_pair_with_peer` call at its position's configuration
state. -/
def pairOutcomes : List (CliEnv × PairInput) → SyncthingConfig → List (PairInput × Bool)
  | [], _ => []
  | (e, i) :: rest, cfg =>
    let r := auto_pair_with_peer e cfg i
    (i, r.1) :: pairOutcomes rest r.2

/-- The add_device_to_folder call a device id of `paired_device_ids` causes
for folder `f`: issued only for a truthy id (`if device_id:` in the source). -/
def linkCallOf (f : String) : Option String → Option (String × String)
  | some s => if s ≠ "" then some (f, s) else none
  | none => none

/-- Embeds the folder-linking step at the end of the `pair` command: only
when `paired_device_ids` is nonempty, for every listed folder ID starting
with `"scratch-"` and every truthy paired device id, an
`add_device_to_folder` call is issued.  The result is the list of
`(folder_id, device_id)` calls made. -/
def linkFolderCalls (folderIds : List String) (paired : List (Option String)) :
    List (String × String) :=
  if paired.isEmpty then []
  else (folderIds.filter (fun f => pyStartsWith f "scratch-")).flatMap
    (fun f => paired.filterMap (linkCallOf f))

theorem linkCallOf_eq_some (f : String) (x : Option String) (p : String × String) :
    linkCallOf f x = some p ↔ x = some p.2 ∧ p.2 ≠ "" ∧ p.1 = f := by
  cases x with
  | none => simp [linkCallOf]
  | some s =>
    simp only [linkCallOf]
    split_ifs with h
    · constructor
      · intro he
        cases he
        exact ⟨rfl, h, rfl⟩
      · rintro ⟨hs, _, hf⟩
        cases hs
        cases p
        simp_all
    · push_neg at h
      subst h
      constructor
      · intro hfalse
        simp at hfalse
      · rintro ⟨hs, hne, _⟩
        injection hs with h2
        exact absurd h2.symm hne

theorem pairSelected_eq_outcomes (l : List (CliEnv × PairInput)) (cfg : SyncthingConfig) :
    (pairSelected l cfg).1 =
      ((pairOutcomes l cfg).filter (fun p => p.2)).map
        (fun p => p.1.syncthing_device_id) := by
  induction l generalizing cfg with
  | nil => rfl
  | cons hd rest ih =>
    obtain ⟨e, i⟩ := hd
    simp only [pairSelected, pairOutcomes, List.filter_cons]
    cases hr : (auto_pair_with_peer e cfg i).1 <;> simp [hr, ih]

/-- C7: the folder-linking step runs only when at least one device paired
successfully, its input is exactly the device ids of the successfully paired
peers, and it issues an add-to-folder call exactly for every listed folder
whose ID starts with `"scratch-"` and no other folder. -/
theorem link_step_characterization
    (l : List (CliEnv × PairInput)) (cfg : SyncthingConfig)
    (folderIds : List String) (f d : String) :
    ((pairSelected l cfg).1 =
      ((pairOutcomes l cfg).filter (fun p => p.2)).map
        (fun p => p.1.syncthing_device_id)) ∧
    ((pairSelected l cfg).1 = [] ↔ ∀ p ∈ pairOutcomes l cfg, p.2 = false) ∧
    ((f, d) ∈ linkFolderCalls folderIds (pairSelected l cfg).1 ↔
      ((pairSelected l cfg).1 ≠ [] ∧ f ∈ folderIds ∧ pyStartsWith f "scratch-" = true ∧
       some d ∈ (pairSelected l cfg).1 ∧ d ≠ "")) := by
  refine ⟨pairSelected_eq_outcomes l cfg, ?_, ?_⟩
  · rw [pairSelected_eq_outcomes l cfg]
    simp only [List.map_eq_nil_iff, List.filter_eq_nil_iff]
    constructor
    · intro h p hp
      have := h p hp
      simp_all
    · intro h p hp
      simp [h p hp]
  · unfold linkFolderCalls
    by_cases hp : (pairSelected l cfg).1.isEmpty
    · rw [List.isEmpty_iff] at hp
      simp [hp]
    · rw [List.isEmpty_iff] at hp
      rw [if_neg (by simpa using hp)]
      simp only [List.mem_flatMap, List.mem_filter, List.mem_filterMap]
      constructor
      · rintro ⟨f2, ⟨hf2, hss⟩, x, hx, hcall⟩
        rw [linkCallOf_eq_some] at hcall
        obtain ⟨hxd, hdne, hff⟩ := hcall
        subst hff
        exact ⟨hp, hf2, hss, hxd ▸ hx, hdne⟩
      · rintro ⟨_, hf, hss, hmem, hdne⟩
        exact ⟨f, ⟨hf, hss⟩, some d, hmem,
          (linkCallOf_eq_some f (some d) (f, d)).mpr ⟨rfl, hdne, rfl⟩⟩

/-- Witness for link_step_characterization with one successfully pairing
peer, one managed folder and one unrelated folder. -/
theorem link_step_characterization_witness :
    ("scratch-main", "D9") ∈ linkFolderCalls ["scratch-main", "other"]
      (pairSelected [(⟨true, true, true⟩, ⟨some "D9", some "ip", none, none, none⟩)]
        ⟨[]⟩).1 := by
  exact (link_step_characterization
    [(⟨true, true, true⟩, ⟨some "D9", some "ip", none, none, none⟩)] ⟨[]⟩
    ["scratch-main", "other"] "scratch-main" "D9").2.2.mpr
    ⟨by decide, by decide, by decide, by decide, by decide⟩

/-! ### Claims C3 and C4 about the probe classification -/

/-- Counterexample to C3 as stated: an HTTP 200 response in which the
`X-Syncthing-Id` header is present but has the empty value is classified
`NO_SYNCTHING_HEADER`, not `SUCCESS` — the source tests Python truthiness of
the header value, not its presence. -/
theorem probe_empty_identity_header_not_success :
    getHeader [("X-Syncthing-Id", "")] "X-Syncthing-Id" = some "" ∧
    (discover_syncthing_peer_detailed "100.64.0.1"
      (.response 200 [("X-Syncthing-Id", "")])).status ≠ .SUCCESS ∧
    (discover_syncthing_peer_detailed "100.64.0.1"
      (.response 200 [("X-Syncthing-Id", "")])).status = .NO_SYNCTHING_HEADER := by
  decide

/-- C3 (amended): an HTTP 200 response whose `X-Syncthing-Id` header is
present with a non-empty value is classified `SUCCESS`, and the peer info
carries the header's value case-preserved as the device id, the
`X-Syncthing-Version` header's value (default "unknown" when absent) and
the fixed data port 22000. -/
theorem probe_success_populates_identity
    (ip : String) (headers : List (String × String)) (v : String)
    (hv : getHeader headers "X-Syncthing-Id" = some v) (hne : v ≠ "") :
    (discover_syncthing_peer_detailed ip (.response 200 headers)).status = .SUCCESS ∧
    (discover_syncthing_peer_detailed ip (.response 200 headers)).peer_info =
      some { hostname := none, tailscale_ip := ip, syncthing_device_id := v,
             syncthing_version := (getHeader headers "X-Syncthing-Version").getD "unknown",
             syncthing_port := 22000 } := by
  simp [discover_syncthing_peer_detailed, hv, pyTruthyS_some hne]

/-- Witness for probe_success_populates_identity on a concrete response with
a mixed-case device id. -/
theorem probe_success_populates_identity_witness :
    getHeader [("X-Syncthing-Id", "AbC-dEf"), ("X-Syncthing-Version", "v1.2")]
      "X-Syncthing-Id" = some "AbC-dEf" ∧
    (discover_syncthing_peer_detailed "ip"
      (.response 200 [("X-Syncthing-Id", "AbC-dEf"), ("X-Syncthing-Version", "v1.2")])).peer_info =
      some ⟨none, "ip", "AbC-dEf", "v1.2", 22000⟩ := by
  refine ⟨by decide, ?_⟩
  have h := probe_success_populates_identity "ip"
    [("X-Syncthing-Id", "AbC-dEf"), ("X-Syncthing-Version", "v1.2")] "AbC-dEf"
    (by decide) (by decide)
  rw [h.2]
  decide

/-- C4: exhaustive classification of the non-success probe outcomes.  HTTP
200 with the identity header absent gives `NO_SYNCTHING_HEADER` (the spec's
NO_IDENTITY_HEADER), never `SUCCESS`; a non-200 status gives `HTTP_ERROR`
with the status code inside the message; a connect error whose text contains
"refused" (an actively refused connection) gives `CONNECTION_REFUSED`; a
timeout gives `TIMEOUT`; any other connect error or exception gives
`UNKNOWN_ERROR` with the underlying cause inside the message. -/
theorem probe_failure_classification (ip : String) :
    (∀ headers, getHeader headers "X-Syncthing-Id" = none →
      (discover_syncthing_peer_detailed ip (.response 200 headers)).status =
        .NO_SYNCTHING_HEADER ∧
      (discover_syncthing_peer_detailed ip (.response 200 headers)).status ≠ .SUCCESS) ∧
    (∀ (statusCode : Nat) headers, statusCode ≠ 200 →
      (discover_syncthing_peer_detailed ip (.response statusCode headers)).status =
        .HTTP_ERROR ∧
      ∃ pre post,
        (discover_syncthing_peer_detailed ip (.response statusCode headers)).error_message =
          some (pre ++ Nat.repr statusCode ++ post)) ∧
    (∀ msg, (strContains (pyLower msg) "refused" ||
        strContains (pyLower msg) "connection refused") = true →
      (discover_syncthing_peer_detailed ip (.connectError msg)).status =
        .CONNECTION_REFUSED) ∧
    ((discover_syncthing_peer_detailed ip .timeout).status = .TIMEOUT) ∧
    (∀ msg, (strContains (pyLower msg) "refused" ||
        strContains (pyLower msg) "connection refused") = false →
      (discover_syncthing_peer_detailed ip (.connectError msg)).status = .UNKNOWN_ERROR ∧
      ∃ pre post,
        (discover_syncthing_peer_detailed ip (.connectError msg)).error_message =
          some (pre ++ msg ++ post)) ∧
    (∀ msg, (discover_syncthing_peer_detailed ip (.otherException msg)).status =
        .UNKNOWN_ERROR ∧
      (discover_syncthing_peer_detailed ip (.otherException msg)).error_message =
        some msg) := by
  refine ⟨?_, ?_, ?_, rfl, ?_, ?_⟩
  · intro headers hnone
    constructor <;> simp [discover_syncthing_peer_detailed, hnone, pyTruthyS]
  · intro statusCode headers hne
    refine ⟨by simp [discover_syncthing_peer_detailed, hne], "HTTP ", "", ?_⟩
    simp [discover_syncthing_peer_detailed, hne]
  · intro msg hc
    simp [discover_syncthing_peer_detailed, hc]
  · intro msg hc
    refine ⟨by simp [discover_syncthing_peer_detailed, hc], "Connection error: ", "", ?_⟩
    simp [discover_syncthing_peer_detailed, hc]
  · intro msg
    exact ⟨rfl, rfl⟩

/-- Witness for probe_failure_classification on concrete outcomes: a 404
response, a "connection refused" connect error and a bare 200 response. -/
theorem probe_failure_classification_witness :
    (discover_syncthing_peer_detailed "h" (.response 404 [])).status = .HTTP_ERROR ∧
    (discover_syncthing_peer_detailed "h"
      (.connectError "[Errno 111] Connection refused")).status = .CONNECTION_REFUSED ∧
    (discover_syncthing_peer_detailed "h" (.response 200 [])).status =
      .NO_SYNCTHING_HEADER := by
  have h := probe_failure_classification "h"
  exact ⟨(h.2.1 404 [] (by decide)).1,
    h.2.2.1 "[Errno 111] Connection refused" (by decide),
    (h.1 [] (by decide)).1⟩

/-! ### cli.py `_format_time`, used by the `status` snapshot for last-seen -/

/-- Replaces every occurrence of the character `tgt` by the characters `rep`. -/
def replaceChar (tgt : Char) (rep : List Char) : List Char → List Char
  | [] => []
  | c :: rest => (if c = tgt then rep else [c]) ++ replaceChar tgt rep rest

/-- Embeds `iso_time.replace("Z", "+00:00")` (a single-character pattern). -/
def pyReplaceZ (s : String) : String :=
  ⟨replaceChar 'Z' "+00:00".data s.data⟩

/-- Embeds `_format_time(iso_time)` of cli.py.  The external pieces are
parameters: `now` is the clock reading of `datetime.now` in epoch seconds,
and `fromiso` models the `datetime.fromisoformat`-based try-block — `some t`
is the parsed timestamp in epoch seconds, `none` means the parse or the
subsequent datetime arithmetic raised, landing in the `except` branch.
Python's `timedelta` normalizes to floor-division days and a nonnegative
seconds remainder. -/
def format_time (now : Int) (fromiso : String → Option Int) (iso_time : String) : String :=
  if decide (iso_time = "") || pyStartsWith iso_time "1969" ||
      pyStartsWith iso_time "0001" then
    "never"
  else
    match fromiso (pyReplaceZ iso_time) with
    | some t =>
      let diffDays : Int := Int.fdiv (now - t) 86400
      let diffSecs : Int := Int.emod (now - t) 86400
      if diffDays > 0 then Int.repr diffDays ++ "d ago"
      else if diffSecs > 3600 then Int.repr (Int.fdiv diffSecs 3600) ++ "h ago"
      else if diffSecs > 60 then Int.repr (Int.fdiv diffSecs 60) ++ "m ago"
      else "just now"
    | none => if iso_time.length > 19 then iso_time.take 19 else iso_time

theorem append_ne_never (x y : String) (hy : y.data.length = 5)
    (hne : y.data ≠ "never".data) : x ++ y ≠ "never" := by
  intro h
  have hd : x.data ++ y.data = "never".data := by
    rw [← String.data_append, h]
  have hlen : x.data.length + y.data.length = 5 := by
    rw [← List.length_append, hd]; decide
  have hxe : x.data = [] := List.length_eq_zero.mp (by omega)
  rw [hxe, List.nil_append] at hd
  exact hne hd

/-- Counterexample to C5 as stated: the epoch-zero sentinel rendered in UTC,
`"1970-01-01T00:00:00Z"`, is formatted as an elapsed duration, not "never" —
the source only recognizes texts starting with "1969" or "0001".  The
concrete `fromiso` gives the real `datetime.fromisoformat` value (epoch 0)
for this input; `now` is 2025-10-12T00:00:00Z. -/
theorem format_time_epoch_utc_not_never :
    format_time 1760227200
      (fun s => if s = "1970-01-01T00:00:00+00:00" then some 0 else none)
      "1970-01-01T00:00:00Z" = "20373d ago" := by decide

/-- C5 (amended): the last-seen formatter renders "never" exactly from its
string-prefix test: for every input that is empty or starts with "1969"
(epoch zero in a negative-offset timezone) or "0001" (the daemon's zero
time), independent of the clock and of the parser.  An epoch-zero timestamp
in a representation not matching those prefixes, such as UTC
`"1970-01-01T00:00:00Z"`, is instead rendered as an elapsed duration, never
as "never". -/
theorem format_time_sentinel_prefixes (now : Int) (fromiso : String → Option Int)
    (iso_time : String)
    (h : iso_time = "" ∨ pyStartsWith iso_time "1969" = true ∨
      pyStartsWith iso_time "0001" = true) :
    format_time now fromiso iso_time = "never" ∧
    (∀ (now2 : Int) (fromiso2 : String → Option Int),
      format_time now2 fromiso2 "1970-01-01T00:00:00Z" ≠ "never") := by
  constructor
  · have hc : (decide (iso_time = "") || pyStartsWith iso_time "1969" ||
        pyStartsWith iso_time "0001") = true := by
      rcases h with h | h | h <;> simp [h]
    simp only [format_time, hc, if_true]
  · intro now2 fromiso2
    have hc : (decide (("1970-01-01T00:00:00Z" : String) = "") ||
        pyStartsWith "1970-01-01T00:00:00Z" "1969" ||
        pyStartsWith "1970-01-01T00:00:00Z" "0001") = false := by decide
    simp only [format_time, hc, Bool.false_eq_true, if_false]
    cases hfi : fromiso2 (pyReplaceZ "1970-01-01T00:00:00Z") with
    | none =>
      show (if ("1970-01-01T00:00:00Z" : String).length > 19
        then ("1970-01-01T00:00:00Z" : String).take 19
        else "1970-01-01T00:00:00Z") ≠ "never"
      decide
    | some t =>
      show (if Int.fdiv (now2 - t) 86400 > 0
          then Int.repr (Int.fdiv (now2 - t) 86400) ++ "d ago"
        else if Int.emod (now2 - t) 86400 > 3600
          then Int.repr (Int.fdiv (Int.emod (now2 - t) 86400) 3600) ++ "h ago"
        else if Int.emod (now2 - t) 86400 > 60
          then Int.repr (Int.fdiv (Int.emod (now2 - t) 86400) 60) ++ "m ago"
        else "just now") ≠ "never"
      split_ifs with h1 h2 h3
      · exact append_ne_never _ "d ago" (by decide) (by decide)
      · exact append_ne_never _ "h ago" (by decide) (by decide)
      · exact append_ne_never _ "m ago" (by decide) (by decide)
      · decide

/-- Witness for format_time_sentinel_prefixes at the sentinel as reported in
a negative-offset timezone. -/
theorem format_time_sentinel_prefixes_witness :
    pyStartsWith "1969-12-31T16:00:00-08:00" "1969" = true ∧
    format_time 0 (fun _ => none) "1969-12-31T16:00:00-08:00" = "never" :=
  ⟨by decide,
    (format_time_sentinel_prefixes 0 (fun _ => none) "1969-12-31T16:00:00-08:00"
      (Or.inr (Or.inl (by decide)))).1⟩

/-! ### cli.py `status`: the per-device connection view -/

/-- A per-device entry of the "connections" map (every key may be absent). -/
structure ConnEntry where
  connected : Option Bool := none
  paused : Option Bool := none
  inBytesTotal : Option Nat := none
  outBytesTotal : Option Nat := none
deriving DecidableEq

/-- The JSON document returned by `syncthing show connections`; its
"connections" key may be absent. -/
structure ConnJson where
  connections : Option (List (String × ConnEntry)) := none
deriving DecidableEq

/-- Embeds `syncthing.get_connections()`: the parsed document when the CLI
succeeds, the empty document when it exits non-zero (it never raises). -/
def get_connections (ok : Bool) (raw : ConnJson) : ConnJson :=
  if ok then raw else {}

/-- Embeds `conn_info = connections.get("connections", {})` of `status`. -/
def connInfoOf (j : ConnJson) : List (String × ConnEntry) :=
  j.connections.getD []

/-- Embeds `conn = conn_info.get(dev_id, {})` of `status`. -/
def lookupConn (conn_info : List (String × ConnEntry)) (dev_id : String) : ConnEntry :=
  ((conn_info.find? (fun p => p.1 = dev_id)).map (fun p => p.2)).getD {}

/-- Embeds the per-device status cell of `status` (rich markup kept
verbatim). -/
def deviceStatusCell (c : ConnEntry) : String :=
  if pyTruthyB c.connected then "[green]connected[/]"
  else if pyTruthyB c.paused then "[yellow]paused[/]"
  else "[red]disconnected[/]"

/-- Embeds the bindings `in_bytes = conn.get("inBytesTotal", 0)` and
`out_bytes = conn.get("outBytesTotal", 0)` of `status`. -/
def deviceTransferBytes (c : ConnEntry) : Nat × Nat :=
  (c.inBytesTotal.getD 0, c.outBytesTotal.getD 0)

/-- Embeds `_get_state_style(state)` of cli.py. -/
def get_state_style (state : String) : String :=
  (([("idle", "green"), ("scanning", "yellow"), ("syncing", "cyan"),
     ("error", "red"), ("unknown", "dim")].find?
      (fun p => p.1 = state)).map (fun p => p.2)).getD "dim"

/-- Embeds the per-folder status cell of `status`: `none` models
`get_folder_status` returning a falsy value, `some st` a truthy document
whose "state" key holds `st` (absent key defaults to "unknown"). -/
def folderStateCell (folder_status : Option (Option String)) : String :=
  match folder_status with
  | some st => "[" ++ get_state_style (st.getD "unknown") ++ "]" ++
      st.getD "unknown" ++ "[/]"
  | none => "[dim]unknown[/]"

/-- Counterexample to C8 as stated: when the connection source is
unavailable, the device's status cell is identical to that of a confirmed
disconnected device — `[red]disconnected[/]`, with no "unknown" tag — so the
degraded state is not distinguishable. -/
theorem conn_missing_renders_as_disconnected :
    deviceStatusCell (lookupConn (connInfoOf (get_connections false
      ⟨some [("DEV", ⟨some false, some false, some 0, some 0⟩)]⟩)) "DEV") =
      deviceStatusCell ⟨some false, some false, some 0, some 0⟩ ∧
    deviceStatusCell ⟨some false, some false, some 0, some 0⟩ =
      "[red]disconnected[/]" := by decide

/-- C8 (amended): when the connection source is unavailable or carries no
entry for a device, the device's connected flag defaults to false and its
transfer totals default to zero without failing the snapshot (the CLI
failure degrades to an empty document) — but this degraded state is rendered
exactly like a confirmed disconnected device; the "unknown" tag appears only
in the folder sync-state cell. -/
theorem status_conn_degradation
    (raw : ConnJson) (conn_info : List (String × ConnEntry)) (dev_id : String) :
    (get_connections false raw = {}) ∧
    ((conn_info.find? (fun p => p.1 = dev_id)) = none →
      deviceStatusCell (lookupConn conn_info dev_id) = "[red]disconnected[/]" ∧
      deviceTransferBytes (lookupConn conn_info dev_id) = (0, 0)) ∧
    (∀ c : ConnEntry, pyTruthyB c.connected = false → pyTruthyB c.paused = false →
      deviceStatusCell c = "[red]disconnected[/]") ∧
    (folderStateCell none = "[dim]unknown[/]") := by
  refine ⟨rfl, ?_, ?_, rfl⟩
  · intro h
    simp [lookupConn, h, deviceStatusCell, deviceTransferBytes, pyTruthyB]
  · intro c h1 h2
    simp [deviceStatusCell, h1, h2]

/-- Witness for status_conn_degradation with an empty connections map. -/
theorem status_conn_degradation_witness :
    deviceStatusCell (lookupConn [] "D") = "[red]disconnected[/]" ∧
    deviceTransferBytes (lookupConn [] "D") = (0, 0) :=
  (status_conn_degradation ⟨none⟩ [] "D").2.1 rfl

/-! ### tailscale.py: get_online_peers -/

/-- A peer entry of the `tailscale status --json` document (all keys
optional). -/
structure TSPeerJson where
  hostName : Option String := none
  tailscaleIPs : Option (List (Option String)) := none
  os : Option String := none
  online : Option Bool := none
  id : Option Int := none
deriving DecidableEq

/-- The parsed `tailscale status --json` document: the values of its "Peer"
mapping. -/
structure TSStatus where
  peers : List TSPeerJson
deriving DecidableEq

/-- Embeds the `TailscalePeer` dataclass of tailscale.py (`tailscale_ip` can
be `None` in the source despite its annotation, so it is optional here). -/
structure TailscalePeer where
  hostname : String
  tailscale_ip : Option String
  os : String
  online : Bool
  node_id : Option Int := none
deriving DecidableEq

/-- Outcome of the `tailscale status --json` subprocess: the binary is
missing (`FileNotFoundError`), or it ran with an exit code and stdout that
either parses to a document or not (`json.JSONDecodeError`). -/
inductive TailscaleCliResult where
  | fileNotFound
  | ran (returncode : Int) (parsed : Option TSStatus)
deriving DecidableEq

/-- Embeds `peer.get("TailscaleIPs", [None])[0]`: `.error` is the
`IndexError` raised when the key holds an empty list (uncaught in the
source). -/
def getFirstIp : Option (List (Option String)) → Except String (Option String)
  | none => .ok none
  | some [] => .error "IndexError"
  | some (x :: _) => .ok x

/-- The `TailscalePeer(...)` constructed for an online peer in
`get_online_peers`. -/
def mkOnlinePeer (p : TSPeerJson) (ip : Option String) : TailscalePeer :=
  { hostname := p.hostName.getD "unknown", tailscale_ip := ip,
    os := p.os.getD "unknown", online := true, node_id := p.id }

/-- The loop body of `get_online_peers`: keeps peers with a truthy `Online`
flag, propagating the uncaught `IndexError`. -/
def collectOnlinePeers : List TSPeerJson → Except String (List TailscalePeer)
  | [] => .ok []
  | p :: rest =>
    if pyTruthyB p.online then
      match getFirstIp p.tailscaleIPs with
      | .error e => .error e
      | .ok ip => (collectOnlinePeers rest).map (fun l => mkOnlinePeer p ip :: l)
    else collectOnlinePeers rest

/-- Embeds `tailscale.get_online_peers()`. -/
def get_online_peers : TailscaleCliResult → Except String (List TailscalePeer)
  | .fileNotFound => .ok []
  | .ran rc parsed =>
    if rc ≠ 0 then .ok []
    else
      match parsed with
      | none => .ok []
      | some st => collectOnlinePeers st.peers

/-- C9: for every failure mode of the overlay client — binary absent, status
command exiting non-zero, unparsable status output — `get_online_peers`
returns the empty list and never raises (its result is `.ok`). -/
theorem online_peers_failure_empty (r : TailscaleCliResult)
    (h : r = .fileNotFound ∨
      (∃ rc parsed, r = .ran rc parsed ∧ rc ≠ 0) ∨
      (∃ rc, r = .ran rc none)) :
    get_online_peers r = .ok [] := by
  rcases h with h | ⟨rc, parsed, h, hrc⟩ | ⟨rc, h⟩ <;> subst h
  · rfl
  · simp [get_online_peers, hrc]
  · by_cases hrc : rc = 0 <;> simp [get_online_peers, hrc]

/-- Witness for online_peers_failure_empty on all three failure modes. -/
theorem online_peers_failure_empty_witness :
    get_online_peers .fileNotFound = .ok [] ∧
    get_online_peers (.ran 1 none) = .ok [] ∧
    get_online_peers (.ran 0 none) = .ok [] :=
  ⟨online_peers_failure_empty _ (Or.inl rfl),
   online_peers_failure_empty _ (Or.inr (Or.inl ⟨1, none, rfl, by decide⟩)),
   online_peers_failure_empty _ (Or.inr (Or.inr ⟨0, rfl⟩))⟩

theorem collectOnlinePeers_ok (ps : List TSPeerJson) (l : List TailscalePeer)
    (h : collectOnlinePeers ps = .ok l) :
    (∀ p ∈ l, p.online = true) ∧
    l.length = (ps.filter (fun p => pyTruthyB p.online)).length := by
  induction ps generalizing l with
  | nil =>
    simp only [collectOnlinePeers, Except.ok.injEq] at h
    subst h
    simp
  | cons p rest ih =>
    simp only [collectOnlinePeers] at h
    by_cases hon : pyTruthyB p.online
    · rw [if_pos hon] at h
      cases hip : getFirstIp p.tailscaleIPs with
      | error e => rw [hip] at h; simp at h
      | ok ip =>
        rw [hip] at h
        cases hrec : collectOnlinePeers rest with
        | error e => rw [hrec] at h; simp [Except.map] at h
        | ok l2 =>
          rw [hrec] at h
          simp only [Except.map, Except.ok.injEq] at h
          subst h
          obtain ⟨h1, h2⟩ := ih l2 hrec
          refine ⟨?_, by simp [List.filter_cons, hon, h2]⟩
          intro q hq
          rcases List.mem_cons.mp hq with hq | hq
          · subst hq; rfl
          · exact h1 q hq
    · rw [if_neg hon] at h
      obtain ⟨h1, h2⟩ := ih l h
      refine ⟨h1, ?_⟩
      simp [List.filter_cons, hon, h2]

/-- C10: every peer returned by `get_online_peers` has `online = true`, and
on a successfully parsed status the returned peers are exactly as many as
the entries with a truthy `Online` flag — entries without one are excluded. -/
theorem online_peers_all_online (r : TailscaleCliResult) (l : List TailscalePeer)
    (h : get_online_peers r = .ok l) :
    (∀ p ∈ l, p.online = true) ∧
    (∀ st : TSStatus, r = .ran 0 (some st) →
      l.length = (st.peers.filter (fun p => pyTruthyB p.online)).length) := by
  cases r with
  | fileNotFound =>
    simp only [get_online_peers, Except.ok.injEq] at h
    subst h
    exact ⟨by simp, by intro st hst; cases hst⟩
  | ran rc parsed =>
    by_cases hrc : rc = 0
    · subst hrc
      simp only [get_online_peers] at h
      rw [if_neg (by simp)] at h
      cases parsed with
      | none =>
        simp only [Except.ok.injEq] at h
        subst h
        refine ⟨by simp, ?_⟩
        intro st hst
        injection hst with h1 h2
        cases h2
      | some st =>
        have hc := collectOnlinePeers_ok st.peers l h
        refine ⟨hc.1, ?_⟩
        intro st2 hst2
        injection hst2 with h1 h2
        injection h2 with h3
        subst h3
        exact hc.2
    · simp only [get_online_peers] at h
      rw [if_pos hrc] at h
      simp only [Except.ok.injEq] at h
      subst h
      refine ⟨by simp, ?_⟩
      intro st hst
      injection hst with h1 h2
      exact absurd h1 hrc

/-- Witness for online_peers_all_online: two parsed peers, one online and
one offline; the result holds the online one only. -/
theorem online_peers_all_online_witness :
    (∀ p ∈ [TailscalePeer.mk "h1" (some "100.1") "linux" true (some 5)],
      p.online = true) ∧
    ([TailscalePeer.mk "h1" (some "100.1") "linux" true (some 5)].length =
      ((TSStatus.mk [⟨some "h1", some [some "100.1"], some "linux", some true, some 5⟩,
        ⟨some "h2", none, none, some false, none⟩]).peers.filter
        (fun p => pyTruthyB p.online)).length) := by
  have h := online_peers_all_online
    (.ran 0 (some (TSStatus.mk
      [⟨some "h1", some [some "100.1"], some "linux", some true, some 5⟩,
       ⟨some "h2", none, none, some false, none⟩])))
    [TailscalePeer.mk "h1" (some "100.1") "linux" true (some 5)]
    rfl
  exact ⟨h.1, h.2 _ rfl⟩

end ScratchSync
